import Mathlib

/-!
Verification development for a minimal HTTP CRUD server (src/main.rs).

The request-parsing functions (get_id, get_user_request_body), the response
constants, the per-route handlers and the router match of handle_client are
embedded as executable Lean functions over String / List Char.  The external
pieces the handlers call into are modelled explicitly:

  - the JSON decoder (serde_json::from_str for the User shape) is an oracle
    parameter of type String to Except Unit User, so that claims can quantify
    over every possible decode outcome;
  - the JSON encoder (serde_json::to_string) is implemented concretely,
    following the serde output format for the User struct: fields in
    declaration order and the standard string escapes;
  - the database (postgres) is modelled as an explicit state, a list of rows
    plus the next SERIAL id, and one operation per SQL statement of the
    source, with the UNIQUE(email) and PRIMARY KEY(id) constraints of the
    schema created by set_database; a connection-open failure is the error
    case of the conn argument of each handler.

Rust string splitting (str::split, str::split_whitespace) is embedded as
structural functions on List Char so that every definition evaluates by
kernel reduction.
-/

/-- The User model of the source: id is an Option since create payloads carry
no id while persisted rows always do. -/
structure User where
  id : Option Int
  name : String
  email : String
deriving DecidableEq

/-- A persisted row of the users table. -/
structure Row where
  id : Int
  name : String
  email : String
deriving DecidableEq

/-- The database state: the rows of the users table plus the next value of
the SERIAL id sequence. -/
structure Db where
  rows : List Row
  nextId : Int
deriving DecidableEq

/-- HTTP/1.1 200 response head constant of the source (status line, the
Content-Type header and the blank line). -/
def OK_RESPONSE : String := "HTTP/1.1 200 OK\r\nContent-Type: application/json\r\n\r\n"

/-- HTTP/1.1 404 response head constant of the source. -/
def NOT_FOUND : String := "HTTP/1.1 404 NOT FOUND\r\n\r\n"

/-- HTTP/1.1 500 response head constant of the source. -/
def INTERNAL_ERROR : String := "HTTP/1.1 500 INTERNAL ERROR\r\n\r\n"

/-- Prepend a character to the first field of a split result, mirroring how a
non-separator character extends the current field of a Rust str::split. -/
def consHead (c : Char) : List (List Char) → List (List Char)
  | [] => [[c]]
  | t :: ts => (c :: t) :: ts

/-- Rust str::split(sep) for a one-character separator: fields between the
occurrences of sep, empty fields kept, always at least one field. -/
def splitChar (sep : Char) : List Char → List (List Char)
  | [] => [[]]
  | c :: cs => if c = sep then [] :: splitChar sep cs else consHead c (splitChar sep cs)

/-- Rust str::split on the four-character separator CR LF CR LF: fields
between the left-to-right non-overlapping occurrences of the separator. -/
def splitCRLF2 : List Char → List (List Char)
  | '\r' :: '\n' :: '\r' :: '\n' :: rest => [] :: splitCRLF2 rest
  | c :: rest => consHead c (splitCRLF2 rest)
  | [] => [[]]

/-- Rust char::is_whitespace: the Unicode White_Space property. -/
def rustIsWhitespace (c : Char) : Bool :=
  c = ' ' || c = '\t' || c = '\n' || c = '\u000B' || c = '\u000C' || c = '\r'
    || c = '\u0085' || c = '\u00A0' || c = '\u1680'
    || ('\u2000' ≤ c && c ≤ '\u200A') || c = '\u2028' || c = '\u2029'
    || c = '\u202F' || c = '\u205F' || c = '\u3000'

/-- Rust str::split_whitespace().next().unwrap_or_default(): the first
maximal run of non-whitespace characters, empty if there is none. -/
def firstWsToken (l : List Char) : List Char :=
  (l.dropWhile rustIsWhitespace).takeWhile (fun c => !rustIsWhitespace c)

/-- get_id of the source: split the whole raw request on the slash character,
take the field at index 2 (empty if absent), then its first
whitespace-separated token. -/
def get_id (request : String) : String :=
  String.mk (firstWsToken ((splitChar '/' request.data).getD 2 []))

/-- The string handed to the JSON decoder by get_user_request_body of the
source: the last field of request.split on CR LF CR LF. -/
def request_body_str (request : String) : String :=
  String.mk ((splitCRLF2 request.data).getLastD [])

/-- get_user_request_body of the source: decode the text after the header
separator with the JSON decoder oracle dec (serde_json::from_str). -/
def get_user_request_body (dec : String → Except Unit User) (request : String) :
    Except Unit User :=
  dec (request_body_str request)

/-- Numeric value of a decimal digit character, none for a non-digit. -/
def digitVal (c : Char) : Option Nat :=
  if '0' ≤ c && c ≤ '9' then some (c.toNat - '0'.toNat) else none

/-- Accumulate the decimal value of a digit string; none on any non-digit. -/
def parseDigitsAux : List Char → Nat → Option Nat
  | [], acc => some acc
  | c :: cs, acc =>
    match digitVal c with
    | some d => parseDigitsAux cs (acc * 10 + d)
    | none => none

/-- Decimal value of a non-empty all-digit string, none otherwise. -/
def parseDigits : List Char → Option Nat
  | [] => none
  | cs => parseDigitsAux cs 0

/-- Rust str::parse for i32: an optional sign, then one or more ASCII
digits, with the i32 range check; every other shape is an error. -/
def parseI32 (s : String) : Except Unit Int :=
  let signDigits : Int × List Char :=
    match s.data with
    | '+' :: rest => (1, rest)
    | '-' :: rest => (-1, rest)
    | cs => (1, cs)
  match parseDigits signDigits.2 with
  | none => Except.error ()
  | some n =>
    let v : Int := signDigits.1 * n
    if -2147483648 ≤ v ∧ v ≤ 2147483647 then Except.ok v else Except.error ()

/-- Hexadecimal digit character, lowercase, for values below 16. -/
def hexDigitChar (n : Nat) : Char :=
  if n < 10 then Char.ofNat ('0'.toNat + n) else Char.ofNat ('a'.toNat + (n - 10))

/-- The serde_json escape of one character inside a JSON string literal. -/
def jsonEscapeChar (c : Char) : List Char :=
  if c = '"' then ['\\', '"']
  else if c = '\\' then ['\\', '\\']
  else if c = '\u0008' then ['\\', 'b']
  else if c = '\t' then ['\\', 't']
  else if c = '\n' then ['\\', 'n']
  else if c = '\u000C' then ['\\', 'f']
  else if c = '\r' then ['\\', 'r']
  else if c.toNat < 32 then
    ['\\', 'u', '0', '0', hexDigitChar (c.toNat / 16), hexDigitChar (c.toNat % 16)]
  else [c]

/-- The serde_json escape of a whole string. -/
def jsonEscape (s : String) : String :=
  String.mk (s.data.map jsonEscapeChar).flatten

/-- serde_json::to_string for the User struct: fields in declaration order
(id, name, email), null for a missing id. -/
def serializeUser (u : User) : String :=
  "\x7b\"id\":" ++ (match u.id with | none => "null" | some i => toString i)
    ++ ",\"name\":\"" ++ jsonEscape u.name
    ++ "\",\"email\":\"" ++ jsonEscape u.email ++ "\"\x7d"

/-- serde_json::to_string for a Vec of Users, as built by the ReadAll
handler from the rows of the table. -/
def serializeUsers (rows : List Row) : String :=
  "[" ++ String.intercalate ","
    (rows.map (fun row => serializeUser ⟨some row.id, row.name, row.email⟩)) ++ "]"

/-- The INSERT statement of the Create handler with RETURNING id, name,
email, under the schema of set_database: fails exactly when the UNIQUE
constraint on email is violated, otherwise appends a row carrying the next
SERIAL id and returns that row. -/
def insertReturning (db : Db) (name email : String) : Except Unit (Db × Row) :=
  if db.rows.any (fun r => r.email == email) then Except.error ()
  else
    let row : Row := ⟨db.nextId, name, email⟩
    Except.ok (⟨db.rows ++ [row], db.nextId + 1⟩, row)

/-- The SELECT-by-id statement of the ReadOne handler as observed through
client.query_opt: none for no matching row, the row when there is exactly
one match, and an error when several rows match (query_opt rejects more
than one row; the PRIMARY KEY makes that unreachable in well-formed states). -/
def selectById (db : Db) (i : Int) : Except Unit (Option Row) :=
  match db.rows.filter (fun r => r.id == i) with
  | [] => Except.ok none
  | [r] => Except.ok (some r)
  | _ => Except.error ()

/-- The UPDATE statement of the Update handler: sets name and email on every
row matching the id and reports the affected-row count; fails exactly when
the new email collides with a row of a different id while at least one row
is updated (the UNIQUE constraint on email). -/
def updateById (db : Db) (i : Int) (name email : String) : Except Unit (Db × Nat) :=
  let n := (db.rows.filter (fun r => r.id == i)).length
  if n ≠ 0 ∧ db.rows.any (fun r => !(r.id == i) && r.email == email) = true then
    Except.error ()
  else
    Except.ok
      (⟨db.rows.map (fun r => if r.id == i then ⟨r.id, name, email⟩ else r), db.nextId⟩, n)

/-- The DELETE statement of the Delete handler: removes every row matching
the id and reports the affected-row count. -/
def deleteById (db : Db) (i : Int) : Db × Nat :=
  (⟨db.rows.filter (fun r => !(r.id == i)), db.nextId⟩,
   (db.rows.filter (fun r => r.id == i)).length)

/-- handle_post_request of the source: decode the body, connect, INSERT with
RETURNING, answer 200 with the JSON of the persisted row; every failure arm
answers 500 with the fixed body. -/
def handle_post_request (dec : String → Except Unit User) (conn : Except Unit Db)
    (request : String) : String × String :=
  match get_user_request_body dec request, conn with
  | Except.ok user, Except.ok db =>
    match insertReturning db user.name user.email with
    | Except.ok (_, row) =>
      (OK_RESPONSE, serializeUser ⟨some row.id, row.name, row.email⟩)
    | Except.error _ => (INTERNAL_ERROR, "Internal error")
  | _, _ => (INTERNAL_ERROR, "Internal error")

/-- handle_get_request of the source: parse the id, connect, SELECT by id;
200 with the JSON of the row, 404 when no row matches, 500 on every failure. -/
def handle_get_request (conn : Except Unit Db) (request : String) : String × String :=
  match parseI32 (get_id request), conn with
  | Except.ok i, Except.ok db =>
    match selectById db i with
    | Except.ok (some row) =>
      (OK_RESPONSE, serializeUser ⟨some row.id, row.name, row.email⟩)
    | Except.ok none => (NOT_FOUND, "User not found")
    | Except.error _ => (INTERNAL_ERROR, "Internal error")
  | _, _ => (INTERNAL_ERROR, "Internal error")

/-- handle_get_all_request of the source: connect and SELECT all rows; 200
with the JSON array, 500 on connection failure. -/
def handle_get_all_request (conn : Except Unit Db) (_request : String) : String × String :=
  match conn with
  | Except.ok db => (OK_RESPONSE, serializeUsers db.rows)
  | Except.error _ => (INTERNAL_ERROR, "Internal error")

/-- handle_put_request of the source: parse the id, decode the body, connect,
UPDATE; 200 when the affected-row count is positive, 404 when it is zero,
500 on every failure. -/
def handle_put_request (dec : String → Except Unit User) (conn : Except Unit Db)
    (request : String) : String × String :=
  match parseI32 (get_id request), get_user_request_body dec request, conn with
  | Except.ok i, Except.ok user, Except.ok db =>
    match updateById db i user.name user.email with
    | Except.ok (_, n) =>
      if n > 0 then (OK_RESPONSE, "User updated") else (NOT_FOUND, "User not found")
    | Except.error _ => (INTERNAL_ERROR, "Internal error")
  | _, _, _ => (INTERNAL_ERROR, "Internal error")

/-- handle_delete_request of the source: parse the id, connect, DELETE; 404
when the affected-row count is zero, 200 otherwise, 500 on every failure. -/
def handle_delete_request (conn : Except Unit Db) (request : String) : String × String :=
  match parseI32 (get_id request), conn with
  | Except.ok i, Except.ok db =>
    if (deleteById db i).2 = 0 then (NOT_FOUND, "User not found")
    else (OK_RESPONSE, "User deleted")
  | _, _ => (INTERNAL_ERROR, "Internal error")

/-- Rust str::starts_with for a plain string pattern. -/
def starts_with (s p : String) : Bool :=
  p.data.isPrefixOf s.data

/-- The five dispatch targets of the router match plus the fallthrough. -/
inductive Route
  | create
  | readOne
  | readAll
  | updateRoute
  | deleteRoute
  | notFoundRoute
deriving DecidableEq

/-- The router of handle_client: the guards of the match, tested in source
order on the raw request string. -/
def route (r : String) : Route :=
  if starts_with r "POST /users" then Route.create
  else if starts_with r "GET /users/" then Route.readOne
  else if starts_with r "GET /users" then Route.readAll
  else if starts_with r "PUT /users/" then Route.updateRoute
  else if starts_with r "DELETE /users/" then Route.deleteRoute
  else Route.notFoundRoute

/-- The response pair produced by the router match of handle_client. -/
def handle_request (dec : String → Except Unit User) (conn : Except Unit Db)
    (r : String) : String × String :=
  match route r with
  | Route.create => handle_post_request dec conn r
  | Route.readOne => handle_get_request conn r
  | Route.readAll => handle_get_all_request conn r
  | Route.updateRoute => handle_put_request dec conn r
  | Route.deleteRoute => handle_delete_request conn r
  | Route.notFoundRoute => (NOT_FOUND, "404 not found")

/-- The bytes written back by handle_client: the status-line constant
concatenated directly with the body. -/
def write_response (p : String × String) : String :=
  p.1 ++ p.2

/-- handle_client of the source, from the characters the single stream read
delivers: at most 4096 of them fit the buffer, they form the request string
(modelled at character level), and the response is routed and written. -/
def client_response (dec : String → Except Unit User) (conn : Except Unit Db)
    (delivered : List Char) : String :=
  write_response (handle_request dec conn (String.mk (delivered.take 4096)))

/-- The suffix after the first occurrence of CR LF CR LF, none when the
separator does not occur; this formalises the wording of the specification
for the body split. -/
def afterFirstCRLF2 : List Char → Option (List Char)
  | '\r' :: '\n' :: '\r' :: '\n' :: rest => some rest
  | _ :: rest => afterFirstCRLF2 rest
  | [] => none

/-- Whether the pattern occurs as a contiguous subsequence. -/
def containsSeq (pat : List Char) : List Char → Bool
  | [] => pat.isEmpty
  | c :: rest => pat.isPrefixOf (c :: rest) || containsSeq pat rest

/-- A JSON decoder oracle that always fails, standing for serde_json on a
malformed body. -/
def noDecode : String → Except Unit User :=
  fun _ => Except.error ()

/-- A JSON decoder oracle that always yields the given user, standing for
serde_json on a body that decodes to it. -/
def constDecode (u : User) : String → Except Unit User :=
  fun _ => Except.ok u

/-- A connection-open failure. -/
def noConn : Except Unit Db :=
  Except.error ()

/-! Helper lemmas about the embedded splitting functions. -/

theorem splitChar_ne_nil (sep : Char) (l : List Char) : splitChar sep l ≠ [] := by
  induction l with
  | nil => simp [splitChar]
  | cons c cs ih =>
    by_cases hc : c = sep
    · simp [splitChar, hc]
    · simp only [splitChar, if_neg hc]
      cases h : splitChar sep cs with
      | nil => exact absurd h ih
      | cons t ts => simp [consHead]

theorem splitChar_append_sep (sep : Char) (a b : List Char) (ha : sep ∉ a) :
    splitChar sep (a ++ sep :: b) = a :: splitChar sep b := by
  induction a with
  | nil => simp [splitChar]
  | cons x a' ih =>
    have hx : x ≠ sep := fun hcc => ha (hcc ▸ List.mem_cons_self x a')
    have ha' : sep ∉ a' := fun hr => ha (List.mem_cons_of_mem _ hr)
    rw [List.cons_append]
    simp only [splitChar, if_neg hx, ih ha']
    rfl

theorem splitChar_append_of_notMem (sep : Char) (a b : List Char) (ha : sep ∉ a) :
    splitChar sep (a ++ b) =
      (a ++ (splitChar sep b).headD []) :: (splitChar sep b).tail := by
  induction a with
  | nil =>
    simp only [List.nil_append]
    cases h : splitChar sep b with
    | nil => exact absurd h (splitChar_ne_nil sep b)
    | cons t ts => simp
  | cons x a' ih =>
    have hx : x ≠ sep := fun hcc => ha (hcc ▸ List.mem_cons_self x a')
    have ha' : sep ∉ a' := fun hr => ha (List.mem_cons_of_mem _ hr)
    rw [List.cons_append]
    simp only [splitChar, if_neg hx, ih ha']
    rfl

theorem splitCRLF2_no_cr (s : List Char) (h : '\r' ∉ s) : splitCRLF2 s = [s] := by
  induction s with
  | nil => rfl
  | cons c rest ih =>
    have hc : c ≠ '\r' := fun hcc => h (hcc ▸ List.mem_cons_self c rest)
    have hrest : '\r' ∉ rest := fun hr => h (List.mem_cons_of_mem _ hr)
    rw [splitCRLF2.eq_def]
    split
    · rename_i heq
      injection heq with h1 _
      exact absurd h1 hc
    · rename_i c' rest' hcond heq
      injection heq with h1 h2
      subst h1
      rw [← h2, ih hrest]
      rfl
    · rename_i heq
      simp at heq

theorem splitCRLF2_sep (a b : List Char) (ha : '\r' ∉ a) :
    splitCRLF2 (a ++ '\r' :: '\n' :: '\r' :: '\n' :: b) = a :: splitCRLF2 b := by
  induction a with
  | nil => rfl
  | cons x a' ih =>
    have hx : x ≠ '\r' := fun hcc => ha (hcc ▸ List.mem_cons_self x a')
    have ha' : '\r' ∉ a' := fun hr => ha (List.mem_cons_of_mem _ hr)
    rw [List.cons_append, splitCRLF2.eq_def]
    split
    · rename_i heq
      injection heq with h1 _
      exact absurd h1 hx
    · rename_i c' rest' hcond heq
      injection heq with h1 h2
      subst h1
      rw [← h2, ih ha']
      rfl
    · rename_i heq
      simp at heq

theorem takeWhile_append_stop (p : Char → Bool) (a b : List Char) (x : Char)
    (ha : ∀ c ∈ a, p c = true) (hx : p x = false) :
    ((a ++ x :: b).takeWhile p) = a := by
  induction a with
  | nil => simp [List.takeWhile_cons, hx]
  | cons c a' ih =>
    have hc : p c = true := ha c (List.mem_cons_self c a')
    have ha' : ∀ d ∈ a', p d = true := fun d hd => ha d (List.mem_cons_of_mem _ hd)
    simp [List.takeWhile_cons, hc, ih ha']

theorem filter_unique_mem (rows : List Row) (row : Row) (i : Int)
    (hp : rows.Pairwise (fun a b => a.id ≠ b.id)) (hm : row ∈ rows) (hid : row.id = i) :
    rows.filter (fun r => r.id == i) = [row] := by
  induction rows with
  | nil => cases hm
  | cons r rs ih =>
    rcases List.pairwise_cons.1 hp with ⟨hr, hp'⟩
    rcases List.mem_cons.1 hm with rfl | hm'
    · have hnil : rs.filter (fun q => q.id == i) = [] := by
        rw [List.filter_eq_nil_iff]
        intro q hq
        simp only [beq_iff_eq]
        intro hqi
        exact hr q hq (hid.trans hqi.symm)
      simp [List.filter_cons, hid, hnil]
    · have hrne : ¬(r.id == i) = true := by
        simp only [beq_iff_eq]
        intro h
        exact hr row hm' (h.trans hid.symm)
      simp only [List.filter_cons, if_neg hrne]
      exact ih hp' hm'

theorem starts_with_excl (r p q : String) (hlen : p.data.length = q.data.length)
    (hne : p.data ≠ q.data) (hp : starts_with r p = true) : starts_with r q = false := by
  cases hq : starts_with r q with
  | false => rfl
  | true =>
    exfalso
    have h1 : p.data <+: r.data := List.isPrefixOf_iff_prefix.1 hp
    have h2 : q.data <+: r.data := List.isPrefixOf_iff_prefix.1 hq
    have h3 : p.data <+: q.data :=
      List.prefix_of_prefix_length_le h1 h2 (le_of_eq hlen)
    exact hne (List.IsPrefix.eq_of_length h3 hlen)

/-! Claim theorems. -/

/-- Claim C1: for every raw request string, the router tests the
request-line prefixes in source order (POST /users, GET /users/, GET /users,
PUT /users/, DELETE /users/), so a request starting with GET /users/ is
dispatched to the ReadOne handler and never to the ReadAll handler, and a
request matching none of the five prefixes yields the fixed not-found
response with body 404 not found. -/
theorem router_dispatch_c1 (r : String) :
    (starts_with r "GET /users/" = true →
      route r = Route.readOne ∧ route r ≠ Route.readAll ∧
      ∀ dec conn, handle_request dec conn r = handle_get_request conn r)
    ∧ ((starts_with r "POST /users" = false ∧ starts_with r "GET /users/" = false ∧
        starts_with r "GET /users" = false ∧ starts_with r "PUT /users/" = false ∧
        starts_with r "DELETE /users/" = false) →
      ∀ dec conn, handle_request dec conn r = (NOT_FOUND, "404 not found")) := by
  constructor
  · intro h
    have hpost : starts_with r "POST /users" = false :=
      starts_with_excl r "GET /users/" "POST /users" (by decide) (by decide) h
    have hroute : route r = Route.readOne := by
      simp [route, hpost, h]
    refine ⟨hroute, ?_, ?_⟩
    · rw [hroute]
      simp
    · intro dec conn
      simp [handle_request, hroute]
  · rintro ⟨h1, h2, h3, h4, h5⟩ dec conn
    simp [handle_request, route, h1, h2, h3, h4, h5]

/-- Witness for C1 at concrete requests: a request starting with GET /users/
is routed to ReadOne, and a request matching no prefix gets the literal
not-found response. -/
theorem router_dispatch_c1_witness :
    route "GET /users/9" = Route.readOne ∧
    handle_request noDecode noConn "HELLO" = (NOT_FOUND, "404 not found") := by
  constructor
  · exact ((router_dispatch_c1 "GET /users/9").1 (by decide)).1
  · exact (router_dispatch_c1 "HELLO").2 (by decide) noDecode noConn

/-- A concrete request whose body itself contains the header separator. -/
def c2req : String := "POST /users HTTP/1.1\r\n\r\nAAA\r\n\r\nBBB"

/-- Claim C2 counterexample: the decoder input is the text after the LAST
occurrence of the blank-line separator, not after the first one; on a
request whose body contains the separator the two differ. -/
theorem request_body_first_sep_c2_counterexample :
    request_body_str c2req = "BBB" ∧
    afterFirstCRLF2 c2req.data = some ("AAA\r\n\r\nBBB" : String).data ∧
    request_body_str c2req ≠ "AAA\r\n\r\nBBB" := by
  refine ⟨rfl, rfl, by decide⟩

/-- Claim C2 (amended): the body handed to the JSON decoder is the last
field of the left-to-right non-overlapping split of the raw text on the
blank-line separator: when head and body contain no carriage return apart
from a single separator it is exactly the text after that separator, and a
request with no carriage return at all is passed through whole. -/
theorem request_body_last_sep_c2 :
    (∀ a b : String, '\r' ∉ a.data → '\r' ∉ b.data →
      request_body_str (a ++ "\r\n\r\n" ++ b) = b)
    ∧ (∀ s : String, '\r' ∉ s.data → request_body_str s = s) := by
  constructor
  · intro a b ha hb
    have h1 : ("\r\n\r\n" : String).data = ['\r', '\n', '\r', '\n'] := rfl
    have hdata : (a ++ "\r\n\r\n" ++ b).data
        = a.data ++ '\r' :: '\n' :: '\r' :: '\n' :: b.data := by
      simp [String.data_append, h1]
    unfold request_body_str
    rw [hdata, splitCRLF2_sep a.data b.data ha, splitCRLF2_no_cr b.data hb]
    simp [List.getLastD]
  · intro s hs
    unfold request_body_str
    rw [splitCRLF2_no_cr s.data hs]
    simp [List.getLastD]

/-- Witness for C2 (amended) at a concrete request with one separator. -/
theorem request_body_last_sep_c2_witness :
    request_body_str ("POST /users" ++ "\r\n\r\n" ++ "XYZ") = "XYZ" :=
  (request_body_last_sep_c2).1 "POST /users" "XYZ" (by decide) (by decide)

/-- A concrete request whose path has only two slash-separated segments. -/
def c3req : String := "GET /users HTTP/1.1\r\nHost: h\r\n\r\n"

/-- Claim C3 counterexample: for a path with no third segment the claim
demands the empty id token, but get_id of the source splits the WHOLE
request on slashes, so the token 1.1 is drawn from the HTTP-version suffix. -/
theorem get_id_path_c3_counterexample :
    get_id c3req = "1.1" ∧ get_id c3req ≠ "" := by
  refine ⟨rfl, by decide⟩

/-- Claim C3 (amended): the id token is the third slash-separated field of
the WHOLE raw request string (not of the path), reduced to its first
whitespace-separated token; for a request of the shape METHOD /users/ID
followed by a space and the rest of the request, with a slash-free method
and a non-empty, slash-free, whitespace-free ID, the token is exactly ID.
When the path lacks a third segment the token is instead drawn from later
request text, as the counterexample shows. -/
theorem get_id_token_c3 (m id rest : String)
    (hm : '/' ∉ m.data) (hid0 : id.data ≠ [])
    (hidw : ∀ c ∈ id.data, rustIsWhitespace c = false) (hids : '/' ∉ id.data) :
    get_id (m ++ " /users/" ++ id ++ " " ++ rest) = id := by
  have h1 : (" /users/" : String).data = [' ', '/', 'u', 's', 'e', 'r', 's', '/'] := rfl
  have h2 : (" " : String).data = [' '] := rfl
  have hdata : (m ++ " /users/" ++ id ++ " " ++ rest).data
      = (m.data ++ [' ']) ++ '/' :: (['u', 's', 'e', 'r', 's'] ++ '/' :: (id.data ++ ' ' :: rest.data)) := by
    simp [String.data_append, h1, h2]
  have hm' : '/' ∉ m.data ++ [' '] := by
    intro hmem
    rcases List.mem_append.1 hmem with h | h
    · exact hm h
    · simp at h
  obtain ⟨t, ts, hts⟩ : ∃ t ts, splitChar '/' rest.data = t :: ts := by
    cases h : splitChar '/' rest.data with
    | nil => exact absurd h (splitChar_ne_nil '/' rest.data)
    | cons t ts => exact ⟨t, ts, rfl⟩
  have s4 : splitChar '/' (' ' :: rest.data) = (' ' :: t) :: ts := by
    simp only [splitChar, if_neg (by decide : ¬(' ' = '/')), hts]
    rfl
  have s3 : splitChar '/' (id.data ++ ' ' :: rest.data)
      = (id.data ++ ' ' :: t) :: ts := by
    rw [splitChar_append_of_notMem '/' id.data (' ' :: rest.data) hids, s4]
    simp
  have s2 : splitChar '/' (['u', 's', 'e', 'r', 's'] ++ '/' :: (id.data ++ ' ' :: rest.data))
      = ['u', 's', 'e', 'r', 's'] :: (id.data ++ ' ' :: t) :: ts := by
    rw [splitChar_append_sep '/' ['u', 's', 'e', 'r', 's'] _ (by decide), s3]
  have s1 : splitChar '/' ((m.data ++ [' ']) ++ '/' :: (['u', 's', 'e', 'r', 's'] ++ '/' :: (id.data ++ ' ' :: rest.data)))
      = (m.data ++ [' ']) :: ['u', 's', 'e', 'r', 's'] :: (id.data ++ ' ' :: t) :: ts := by
    rw [splitChar_append_sep '/' (m.data ++ [' ']) _ hm', s2]
  obtain ⟨c, idc', hc⟩ := List.exists_cons_of_ne_nil hid0
  have hcw : rustIsWhitespace c = false := hidw c (hc ▸ List.mem_cons_self c idc')
  have hdrop : (id.data ++ ' ' :: t).dropWhile rustIsWhitespace = id.data ++ ' ' :: t := by
    rw [hc, List.cons_append, List.dropWhile_cons]
    simp [hcw]
  have htake : (id.data ++ ' ' :: t).takeWhile (fun d => !rustIsWhitespace d) = id.data :=
    takeWhile_append_stop _ id.data t ' ' (fun d hd => by simp [hidw d hd]) (by decide)
  unfold get_id
  rw [hdata, s1]
  show String.mk (firstWsToken (id.data ++ ' ' :: t)) = id
  unfold firstWsToken
  rw [hdrop, htake]

/-- Witness for C3 (amended) at a concrete well-formed request line. -/
theorem get_id_token_c3_witness :
    get_id ("GET" ++ " /users/" ++ "42" ++ " " ++ "HTTP/1.1") = "42" :=
  get_id_token_c3 "GET" "42" "HTTP/1.1" (by decide) (by decide)
    (by decide) (by decide)

/-- Claim C4: when the body decodes to a user and the INSERT succeeds, the
Create handler answers 200 with the JSON of the persisted row, whose id is
the store-assigned next SERIAL value and whose name and email echo the
request; an id field in the payload has no effect on the outcome. -/
theorem create_success_c4 (dec dec2 : String → Except Unit User) (r : String)
    (u v : User) (db db' : Db) (row : Row)
    (hu : get_user_request_body dec r = Except.ok u)
    (hins : insertReturning db u.name u.email = Except.ok (db', row)) :
    handle_post_request dec (Except.ok db) r
      = (OK_RESPONSE, serializeUser ⟨some row.id, row.name, row.email⟩)
    ∧ row.id = db.nextId ∧ row.name = u.name ∧ row.email = u.email
    ∧ db'.rows = db.rows ++ [row]
    ∧ (get_user_request_body dec2 r = Except.ok v → v.name = u.name → v.email = u.email →
        handle_post_request dec2 (Except.ok db) r = handle_post_request dec (Except.ok db) r) := by
  have hins' := hins
  unfold insertReturning at hins'
  by_cases hany : db.rows.any (fun q => q.email == u.email)
  · rw [if_pos hany] at hins'
    cases hins'
  · rw [if_neg hany] at hins'
    injection hins' with h'
    injection h' with h1 h2
    subst h1
    subst h2
    refine ⟨?_, rfl, rfl, rfl, rfl, ?_⟩
    · simp [handle_post_request, hu, hins]
    · intro hv hvn hve
      simp [handle_post_request, hv, hu, hvn, hve]

/-- Witness for C4: creating a user against an empty table echoes name and
email with the freshly assigned id 1, even though the payload carried id 99. -/
theorem create_success_c4_witness :
    handle_post_request (constDecode ⟨some 99, "n", "e"⟩) (Except.ok ⟨[], 1⟩) "POST /users"
      = (OK_RESPONSE, serializeUser ⟨some 1, "n", "e"⟩) := by
  have h := create_success_c4 (constDecode ⟨some 99, "n", "e"⟩) (constDecode ⟨none, "n", "e"⟩)
    "POST /users" ⟨some 99, "n", "e"⟩ ⟨none, "n", "e"⟩ ⟨[], 1⟩ ⟨[⟨1, "n", "e"⟩], 2⟩
    ⟨1, "n", "e"⟩ rfl rfl
  exact h.1

/-- Claim C5: for a ReadOne request with a well-formed integer id against a
well-formed table, an existing row is answered 200 with its JSON and a
missing id is answered 404 with body User not found. -/
theorem read_one_c5 (r : String) (i : Int) (db : Db)
    (hid : parseI32 (get_id r) = Except.ok i)
    (hwf : db.rows.Pairwise (fun a b => a.id ≠ b.id)) :
    (∀ row ∈ db.rows, row.id = i →
      handle_get_request (Except.ok db) r
        = (OK_RESPONSE, serializeUser ⟨some row.id, row.name, row.email⟩))
    ∧ ((∀ row ∈ db.rows, row.id ≠ i) →
      handle_get_request (Except.ok db) r = (NOT_FOUND, "User not found")) := by
  constructor
  · intro row hm hri
    have hfil := filter_unique_mem db.rows row i hwf hm hri
    have hsel : selectById db i = Except.ok (some row) := by
      unfold selectById
      rw [hfil]
    simp [handle_get_request, hid, hsel]
  · intro hnone
    have hfil : db.rows.filter (fun q => q.id == i) = [] := by
      rw [List.filter_eq_nil_iff]
      intro q hq
      simp only [beq_iff_eq]
      exact hnone q hq
    have hsel : selectById db i = Except.ok none := by
      unfold selectById
      rw [hfil]
    simp [handle_get_request, hid, hsel]

/-- Witness for C5: reading id 7 of a one-row table answers its JSON. -/
theorem read_one_c5_witness :
    handle_get_request (Except.ok ⟨[⟨7, "a", "b"⟩], 8⟩) "GET /users/7 HTTP/1.1"
      = (OK_RESPONSE, serializeUser ⟨some 7, "a", "b"⟩) := by
  have h := read_one_c5 "GET /users/7 HTTP/1.1" 7 ⟨[⟨7, "a", "b"⟩], 8⟩ rfl (by simp)
  exact h.1 ⟨7, "a", "b"⟩ (by simp) rfl

/-- Claim C6: with a well-formed id, a decodable body and a successful
UPDATE, the Update handler answers from the affected-row count alone: a
positive count gives 200 User updated and a zero count gives 404 User not
found; the count is zero exactly when no row carries the id, independent of
whether the stored values would change. -/
theorem update_count_c6 (dec : String → Except Unit User) (r : String) (i : Int)
    (u : User) (db db' : Db) (n : Nat)
    (hid : parseI32 (get_id r) = Except.ok i)
    (hu : get_user_request_body dec r = Except.ok u)
    (hupd : updateById db i u.name u.email = Except.ok (db', n)) :
    handle_put_request dec (Except.ok db) r
      = (if n > 0 then (OK_RESPONSE, "User updated") else (NOT_FOUND, "User not found"))
    ∧ (n = 0 ↔ ∀ row ∈ db.rows, row.id ≠ i) := by
  have hupd0 := hupd
  simp only [updateById] at hupd0
  by_cases hcond : ((db.rows.filter (fun q => q.id == i)).length ≠ 0
      ∧ db.rows.any (fun q => !(q.id == i) && q.email == u.email) = true)
  · rw [if_pos hcond] at hupd0
    cases hupd0
  · rw [if_neg hcond] at hupd0
    injection hupd0 with h'
    have hn : (db.rows.filter (fun q => q.id == i)).length = n := congrArg Prod.snd h'
    constructor
    · simp [handle_put_request, hid, hu, hupd]
    · rw [← hn, List.length_eq_zero, List.filter_eq_nil_iff]
      simp [beq_iff_eq]

/-- Witness for C6: updating id 3 with the values it already has still
counts one affected row and answers 200 User updated. -/
theorem update_count_c6_witness :
    handle_put_request (constDecode ⟨none, "x", "y"⟩) (Except.ok ⟨[⟨3, "x", "y"⟩], 4⟩)
      "PUT /users/3 H" = (OK_RESPONSE, "User updated") := by
  have h := update_count_c6 (constDecode ⟨none, "x", "y"⟩) "PUT /users/3 H" 3
    ⟨none, "x", "y"⟩ ⟨[⟨3, "x", "y"⟩], 4⟩ ⟨[⟨3, "x", "y"⟩], 4⟩ 1 rfl rfl rfl
  simpa using h.1

/-- The affected-row count of the DELETE statement. -/
theorem deleteById_snd (db : Db) (i : Int) :
    (deleteById db i).2 = (db.rows.filter (fun q => q.id == i)).length := rfl

/-- The state left by the DELETE statement. -/
theorem deleteById_fst (db : Db) (i : Int) :
    (deleteById db i).1 = ⟨db.rows.filter (fun q => !(q.id == i)), db.nextId⟩ := rfl

/-- Claim C7: with a well-formed id and a successful database operation,
deleting an id absent from the store answers 404 User not found and never
the 500 response; deleting a present id answers 200 User deleted and
repeating the same delete against the resulting state answers 404. -/
theorem delete_idempotent_c7 (r : String) (i : Int) (db : Db)
    (hid : parseI32 (get_id r) = Except.ok i) :
    ((∀ row ∈ db.rows, row.id ≠ i) →
      handle_delete_request (Except.ok db) r = (NOT_FOUND, "User not found") ∧
      handle_delete_request (Except.ok db) r ≠ (INTERNAL_ERROR, "Internal error"))
    ∧ (∀ row ∈ db.rows, row.id = i →
      handle_delete_request (Except.ok db) r = (OK_RESPONSE, "User deleted") ∧
      handle_delete_request (Except.ok (deleteById db i).1) r
        = (NOT_FOUND, "User not found")) := by
  constructor
  · intro hnone
    have hfil : db.rows.filter (fun q => q.id == i) = [] := by
      rw [List.filter_eq_nil_iff]
      intro q hq
      simp only [beq_iff_eq]
      exact hnone q hq
    have hcount : (deleteById db i).2 = 0 := by
      rw [deleteById_snd, hfil]
      rfl
    constructor
    · simp [handle_delete_request, hid, hcount]
    · simp [handle_delete_request, hid, hcount]
  · intro row hm hri
    have hmemf : row ∈ db.rows.filter (fun q => q.id == i) :=
      List.mem_filter.2 ⟨hm, by simp [hri]⟩
    have hpos : (deleteById db i).2 ≠ 0 := by
      rw [deleteById_snd]
      intro h0
      rw [List.length_eq_zero] at h0
      rw [h0] at hmemf
      cases hmemf
    have hcount2 : (deleteById (deleteById db i).1 i).2 = 0 := by
      rw [deleteById_snd, deleteById_fst]
      simp [List.filter_filter]
    constructor
    · simp [handle_delete_request, hid, hpos]
    · simp [handle_delete_request, hid, hcount2]

/-- Witness for C7: deleting id 5 succeeds once and the repeated delete of
the same id against the resulting state answers 404. -/
theorem delete_idempotent_c7_witness :
    handle_delete_request (Except.ok ⟨[⟨5, "n", "e"⟩], 6⟩) "DELETE /users/5 H"
      = (OK_RESPONSE, "User deleted") ∧
    handle_delete_request (Except.ok (deleteById ⟨[⟨5, "n", "e"⟩], 6⟩ 5).1)
      "DELETE /users/5 H" = (NOT_FOUND, "User not found") :=
  (delete_idempotent_c7 "DELETE /users/5 H" 5 ⟨[⟨5, "n", "e"⟩], 6⟩ rfl).2
    ⟨5, "n", "e"⟩ (by simp) rfl

/-- Claim C8: malformed JSON, a non-integer id token, a connection-open
failure and a uniqueness violation (duplicate email on INSERT or UPDATE)
are all answered by every handler with the single 500 response carrying the
fixed body Internal error. -/
theorem internal_error_collapse_c8 :
    (∀ dec conn r, get_user_request_body dec r = Except.error () →
      handle_post_request dec conn r = (INTERNAL_ERROR, "Internal error") ∧
      handle_put_request dec conn r = (INTERNAL_ERROR, "Internal error"))
    ∧ (∀ conn r, parseI32 (get_id r) = Except.error () →
      handle_get_request conn r = (INTERNAL_ERROR, "Internal error") ∧
      handle_delete_request conn r = (INTERNAL_ERROR, "Internal error") ∧
      ∀ dec, handle_put_request dec conn r = (INTERNAL_ERROR, "Internal error"))
    ∧ (∀ dec r,
      handle_post_request dec noConn r = (INTERNAL_ERROR, "Internal error") ∧
      handle_get_request noConn r = (INTERNAL_ERROR, "Internal error") ∧
      handle_get_all_request noConn r = (INTERNAL_ERROR, "Internal error") ∧
      handle_put_request dec noConn r = (INTERNAL_ERROR, "Internal error") ∧
      handle_delete_request noConn r = (INTERNAL_ERROR, "Internal error"))
    ∧ (∀ dec r u db, get_user_request_body dec r = Except.ok u →
      db.rows.any (fun q => q.email == u.email) = true →
      handle_post_request dec (Except.ok db) r = (INTERNAL_ERROR, "Internal error"))
    ∧ (∀ dec r u i db, parseI32 (get_id r) = Except.ok i →
      get_user_request_body dec r = Except.ok u →
      updateById db i u.name u.email = Except.error () →
      handle_put_request dec (Except.ok db) r = (INTERNAL_ERROR, "Internal error")) := by
  refine ⟨?_, ?_, ?_, ?_, ?_⟩
  · intro dec conn r h
    constructor
    · cases conn <;> simp [handle_post_request, h]
    · cases conn <;> cases hp : parseI32 (get_id r) <;> simp [handle_put_request, h, hp]
  · intro conn r h
    refine ⟨?_, ?_, ?_⟩
    · cases conn <;> simp [handle_get_request, h]
    · cases conn <;> simp [handle_delete_request, h]
    · intro dec
      cases conn <;> cases hb : get_user_request_body dec r <;>
        simp [handle_put_request, h, hb]
  · intro dec r
    refine ⟨?_, ?_, ?_, ?_, ?_⟩
    · cases hb : get_user_request_body dec r <;> simp [handle_post_request, noConn, hb]
    · cases hp : parseI32 (get_id r) <;> simp [handle_get_request, noConn, hp]
    · simp [handle_get_all_request, noConn]
    · cases hp : parseI32 (get_id r) <;> cases hb : get_user_request_body dec r <;>
        simp [handle_put_request, noConn, hp, hb]
    · cases hp : parseI32 (get_id r) <;> simp [handle_delete_request, noConn, hp]
  · intro dec r u db hu hany
    have hins : insertReturning db u.name u.email = Except.error () := by
      unfold insertReturning
      rw [if_pos hany]
    simp [handle_post_request, hu, hins]
  · intro dec r u i db hp hu hupd
    simp [handle_put_request, hp, hu, hupd]

/-- Witness for C8: a malformed body, a non-integer id token, a connection
failure and a duplicate email each produce the one 500 response. -/
theorem internal_error_collapse_c8_witness :
    handle_post_request noDecode (Except.ok ⟨[], 1⟩) "POST /users"
      = (INTERNAL_ERROR, "Internal error") ∧
    handle_get_request (Except.ok ⟨[], 1⟩) "GET /users/x"
      = (INTERNAL_ERROR, "Internal error") ∧
    handle_get_all_request noConn "GET /users" = (INTERNAL_ERROR, "Internal error") ∧
    handle_post_request (constDecode ⟨none, "n", "e"⟩) (Except.ok ⟨[⟨1, "m", "e"⟩], 2⟩)
      "POST /users" = (INTERNAL_ERROR, "Internal error") := by
  refine ⟨?_, ?_, ?_, ?_⟩
  · exact (internal_error_collapse_c8.1 noDecode (Except.ok ⟨[], 1⟩) "POST /users" rfl).1
  · exact (internal_error_collapse_c8.2.1 (Except.ok ⟨[], 1⟩) "GET /users/x" rfl).1
  · exact (internal_error_collapse_c8.2.2.1 noDecode "GET /users").2.2.1
  · exact internal_error_collapse_c8.2.2.2.1 (constDecode ⟨none, "n", "e"⟩) "POST /users"
      ⟨none, "n", "e"⟩ ⟨[⟨1, "m", "e"⟩], 2⟩ rfl rfl

/-- The status line of the Create handler is one of the three constants. -/
theorem handle_post_status (dec : String → Except Unit User) (conn : Except Unit Db)
    (r : String) :
    (handle_post_request dec conn r).1 = OK_RESPONSE
    ∨ (handle_post_request dec conn r).1 = NOT_FOUND
    ∨ (handle_post_request dec conn r).1 = INTERNAL_ERROR := by
  unfold handle_post_request
  rcases hb : get_user_request_body dec r with e | u <;> rcases conn with e2 | db <;> simp
  rcases hins : insertReturning db u.name u.email with e3 | ⟨db2, row2⟩ <;> simp [hins]

/-- The status line of the ReadOne handler is one of the three constants. -/
theorem handle_get_status (conn : Except Unit Db) (r : String) :
    (handle_get_request conn r).1 = OK_RESPONSE
    ∨ (handle_get_request conn r).1 = NOT_FOUND
    ∨ (handle_get_request conn r).1 = INTERNAL_ERROR := by
  unfold handle_get_request
  rcases hp : parseI32 (get_id r) with e | i <;> rcases conn with e2 | db <;> simp
  rcases hsel : selectById db i with e3 | o
  · simp [hsel]
  · rcases o with _ | row <;> simp [hsel]

/-- The status line of the ReadAll handler is one of the three constants. -/
theorem handle_get_all_status (conn : Except Unit Db) (r : String) :
    (handle_get_all_request conn r).1 = OK_RESPONSE
    ∨ (handle_get_all_request conn r).1 = NOT_FOUND
    ∨ (handle_get_all_request conn r).1 = INTERNAL_ERROR := by
  unfold handle_get_all_request
  rcases conn with e | db <;> simp

/-- The status line of the Update handler is one of the three constants. -/
theorem handle_put_status (dec : String → Except Unit User) (conn : Except Unit Db)
    (r : String) :
    (handle_put_request dec conn r).1 = OK_RESPONSE
    ∨ (handle_put_request dec conn r).1 = NOT_FOUND
    ∨ (handle_put_request dec conn r).1 = INTERNAL_ERROR := by
  unfold handle_put_request
  rcases hp : parseI32 (get_id r) with e | i <;>
    rcases hb : get_user_request_body dec r with e2 | u <;> rcases conn with e3 | db <;> simp
  rcases hupd : updateById db i u.name u.email with e4 | ⟨db2, n⟩ <;> simp [hupd]
  by_cases hn : n > 0 <;> simp [hn]

/-- The status line of the Delete handler is one of the three constants. -/
theorem handle_delete_status (conn : Except Unit Db) (r : String) :
    (handle_delete_request conn r).1 = OK_RESPONSE
    ∨ (handle_delete_request conn r).1 = NOT_FOUND
    ∨ (handle_delete_request conn r).1 = INTERNAL_ERROR := by
  unfold handle_delete_request
  rcases hp : parseI32 (get_id r) with e | i <;> rcases conn with e2 | db <;> simp
  by_cases h0 : (deleteById db i).2 = 0 <;> simp [h0]

/-- Claim C9 counterexample: the full 404 response for an unroutable request
keeps a blank line between the status line and the body, so the status line
is not followed directly by the body text as the claim states. -/
theorem framing_c9_counterexample :
    write_response (handle_request noDecode noConn "HELLO")
      = "HTTP/1.1 404 NOT FOUND\r\n\r\n404 not found" ∧
    write_response (handle_request noDecode noConn "HELLO")
      ≠ "HTTP/1.1 404 NOT FOUND\r\n404 not found" := by
  refine ⟨rfl, by decide⟩

/-- Claim C9 (amended): every 200 response is framed by the constant with
status line, Content-Type header and blank line; the 404 and 500 responses
omit the Content-Type header but keep the blank line after the status line;
every response is one of the three constants followed directly by the body. -/
theorem framing_c9 :
    OK_RESPONSE = "HTTP/1.1 200 OK\r\nContent-Type: application/json\r\n\r\n"
    ∧ NOT_FOUND = "HTTP/1.1 404 NOT FOUND\r\n\r\n"
    ∧ INTERNAL_ERROR = "HTTP/1.1 500 INTERNAL ERROR\r\n\r\n"
    ∧ containsSeq ("Content-Type" : String).data NOT_FOUND.data = false
    ∧ containsSeq ("Content-Type" : String).data INTERNAL_ERROR.data = false
    ∧ (∀ dec conn r, write_response (handle_request dec conn r)
        = (handle_request dec conn r).1 ++ (handle_request dec conn r).2)
    ∧ (∀ dec conn r, (handle_request dec conn r).1 = OK_RESPONSE
        ∨ (handle_request dec conn r).1 = NOT_FOUND
        ∨ (handle_request dec conn r).1 = INTERNAL_ERROR) := by
  refine ⟨rfl, rfl, rfl, by decide, by decide, fun _ _ _ => rfl, ?_⟩
  intro dec conn r
  unfold handle_request
  cases route r
  · exact handle_post_status dec conn r
  · exact handle_get_status conn r
  · exact handle_get_all_status conn r
  · exact handle_put_status dec conn r
  · exact handle_delete_status conn r
  · simp

/-- Claim C10: the response depends only on the first 4096 characters the
single stream read delivers: two streams agreeing on that prefix produce
identical responses, and truncating a stream to 4096 characters never
changes the response. -/
theorem read_cap_c10 :
    (∀ dec conn (s1 s2 : List Char), s1.take 4096 = s2.take 4096 →
      client_response dec conn s1 = client_response dec conn s2)
    ∧ (∀ dec conn (s : List Char),
      client_response dec conn s = client_response dec conn (s.take 4096)) := by
  constructor
  · intro dec conn s1 s2 h
    unfold client_response
    rw [h]
  · intro dec conn s
    unfold client_response
    rw [List.take_take]
    simp

/-- Witness for C10: two streams of 4097 characters differing only in the
character past the buffer produce the same response. -/
theorem read_cap_c10_witness :
    client_response noDecode noConn (List.replicate 4096 'A' ++ ['B'])
      = client_response noDecode noConn (List.replicate 4096 'A' ++ ['C']) := by
  apply read_cap_c10.1
  have h1 : ∀ c : Char, (List.replicate 4096 'A' ++ [c]).take 4096 = List.replicate 4096 'A' := by
    intro c
    have h := List.take_left (List.replicate 4096 'A') [c]
    rwa [List.length_replicate] at h
  rw [h1, h1]
